import Mathlib

/-!
Verification of the `nx-extend` Cloud Run deploy executor
(`src/executors/deploy/deploy.impl.ts`) against its design specification.

The source file holds two variant implementations of the deploy executor:
* the sidecar/volume variant (namespace `Deploy` below), which builds the
  argument object at lines 150-172 and unparses it with `yargs-unparser`;
* the secrets variant (namespace `DeploySecrets` below), which validates
  `NAME=SECRET:VERSION` entries and builds the command with `buildCommand`.

JavaScript strings are modelled as Lean `String`s; where a JS string
operation has no kernel-reducible Lean counterpart we work on the
underlying character list (`String.data`), which is the same data.
JS `undefined` for optional configuration fields is modelled with `Option`.
The filesystem and the Nx project graph are external collaborators; their
observable answers (resolved output directory, manifest contents) are
inputs to the model (`DeployEnv`).
-/

namespace Deploy

/-- The values that can appear in the `args` object of lines 150-172.
`undef` models a JS `undefined` entry, which `yargs-unparser` omits. -/
inductive JsVal where
  | undef
  | vbool (b : Bool)
  | vstr (s : String)
  | vnum (n : Int)
deriving DecidableEq

/-- JS string-or-undefined field, as placed into the args object. -/
def jsStr : Option String → JsVal
  | some s => JsVal.vstr s
  | none => JsVal.undef

/-- JS number-or-undefined field, as placed into the args object. -/
def jsNum : Option Int → JsVal
  | some n => JsVal.vnum n
  | none => JsVal.undef

/-- JS boolean-or-undefined field, as placed into the args object. -/
def jsBool : Option Bool → JsVal
  | some b => JsVal.vbool b
  | none => JsVal.undef

/-- The `manifestType` union type `'node' | 'python'` (line 25). -/
inductive ManifestType where
  | node
  | python
deriving DecidableEq

/-- Modelled from the spec: the container-shape fields shared between the
executor schema and each sidecar entry (`ContainerFlags`, imported in the
source from `./utils/get-container-flags`, a file that is not part of the
repository snapshot). Per the spec, a container spec carries an image
reference, resource limits and an optional explicit container name. -/
structure ContainerFlags where
  containerName : Option String := none
  image : Option String := none
  memory : Option String := none
  cpu : Option String := none
  port : Option String := none
deriving DecidableEq

/-- The executor's option object (the `ExecutorSchema` interface,
lines 9-44). Optional TypeScript fields become `Option`s; most string
literal union types become plain strings. -/
structure ExecutorSchema extends ContainerFlags where
  name : Option String := none
  buildTarget : Option String := none
  dockerFile : Option String := none
  project : String
  tag : Option String := none
  region : String
  allowUnauthenticated : Option Bool := none
  concurrency : Option Int := none
  maxInstances : Option Int := none
  minInstances : Option Int := none
  cloudSqlInstance : Option String := none
  logsDir : Option String := none
  serviceAccount : Option String := none
  tagWithVersion : Option Bool := none
  manifestType : Option ManifestType := none
  revisionSuffix : Option String := none
  buildWith : Option String := none
  noTraffic : Option Bool := none
  timeout : Option Int := none
  cpuBoost : Option Bool := none
  ingress : Option String := none
  executionEnvironment : Option String := none
  vpcConnector : Option String := none
  vpcEgress : Option String := none
  volumeName : Option String := none
  sidecars : Option (List ContainerFlags) := none
  dryRun : Option Bool := none
deriving DecidableEq

/-- Truthiness of a JS string-or-undefined value: `undefined` and the empty
string are falsy, every other string is truthy. -/
def strFalsy : Option String → Bool
  | none => true
  | some s => s == ""

/-- `options.volumeName` is used under a JS truthiness test
(lines 144 and 171). -/
def volTruthy (v : Option String) : Bool := !strFalsy v

/-- The error thrown at lines 55-57 when the build target resolves to no
output directory. -/
def errNoOutputPath : String := "Build target has no \"outputPath\" configured!"

/-- The error thrown at lines 85-87 when the deployment name is falsy after
falling back to the project name. -/
def errNameRequired : String := "Project name is required (name)"

/-- Modelled error for `readJsonFile` (an `@nx/devkit` collaborator) throwing
on malformed JSON at line 110; the node manifest branch has no try/catch, so
this propagates out of the executor. The exact message comes from the
library and is irrelevant; only its identity is used. -/
def errPackageJsonParse : String := "readJsonFile: failed to parse package.json"

/-- Warning logged at line 116. -/
def warnPkgJsonMissing : String := "tagWithVersion is enabled but package.json not found"

/-- Warning logged at line 138. -/
def warnPyMissing : String := "tagWithVersion is enabled but pyproject.toml not found"

/-- Warning logged at line 132. -/
def warnPyNoVersion : String := "pyproject.toml found but no version field detected"

/-- Warning logged at line 145 when a volume forces the beta surface. -/
def warnVolumesBeta : String := "Volumes are still in beta, using \"gcloud beta\" to deploy.\n"

/-- `version.replace(/\./g, '-')` (lines 112 and 129): every dot becomes a
hyphen. -/
def dashify (s : String) : String := String.mk (s.data.map fun c => if c = '.' then '-' else c)

/-- The ASCII subset of JS regex `\s` (whitespace class). The manifest regex
at line 126 uses `\s*`; `\s` also contains some exotic Unicode spaces, which
no claim exercises and which this model leaves out. Note that `\s` contains
the newline, which matters: `\s*` in a JS multiline regex can cross line
boundaries. -/
def jsWS (c : Char) : Bool :=
  c = ' ' || c = '\t' || c = '\n' || c = '\r' || c = '\x0b' || c = '\x0c'

/-- Drop leading JS whitespace, the deterministic reading of a greedy `\s*`
whose successor token can never match a whitespace character (true for every
`\s*` in the line-126 regex: the next expected characters are `v`, `=`, a
quote, or the end anchor). -/
def dropWS (l : List Char) : List Char := l.dropWhile jsWS

/-- Expect a literal character sequence; return the remaining input. -/
def expectLit : List Char → List Char → Option (List Char)
  | [], l => some l
  | _ :: _, [] => none
  | p :: ps, c :: cs => if c = p then expectLit ps cs else none

/-- The regex's quote class `["']`: a single or a double quote. -/
def isQuoteCh (c : Char) : Bool := c = '"' || c = '\''

/-- The trailing `\s*$` of the line-126 regex in multiline mode: from the
current position, every character up to the next `'\n'` (exclusive) or to
the end of input must be whitespace. (`$` matches at the end of input or
just before a `'\n'`; the greedy `\s*` backtracks to the first such
position reachable through whitespace.) -/
def trailingWS : List Char → Bool
  | [] => true
  | c :: rest => if c = '\n' then true else jsWS c && trailingWS rest

/-- One anchored attempt of the regex
`^\s*version\s*=\s*["']([^"']+)["']\s*$` (line 126), starting at a position
where `^` matches. Returns the captured group. Every quantifier in the
pattern is deterministic (see `dropWS` and `trailingWS`), so no further
backtracking is needed. Note `[^"']` matches any character that is not a
quote — including `'\n'`. -/
def matchFrom (l : List Char) : Option (List Char) :=
  match expectLit "version".data (dropWS l) with
  | none => none
  | some l2 =>
    match dropWS l2 with
    | '=' :: l3 =>
      match dropWS l3 with
      | q :: l4 =>
        if isQuoteCh q then
          match l4.dropWhile (fun c => !isQuoteCh c) with
          | q2 :: l5 =>
            if isQuoteCh q2 then
              let cap := l4.takeWhile (fun c => !isQuoteCh c)
              if cap.isEmpty then none
              else if trailingWS l5 then some cap else none
            else none
          | [] => none
        else none
      | [] => none
    | _ => none

/-- Scan the anchors of the multiline regex in order: position 0 and every
position just after a `'\n'`; return the capture of the first anchored
match, as `String.prototype.match` does for the first (leftmost) match. -/
def scanAnchors : Bool → List Char → Option (List Char)
  | atAnchor, [] => if atAnchor then matchFrom [] else none
  | atAnchor, c :: rest =>
    if atAnchor then
      match matchFrom (c :: rest) with
      | some cap => some cap
      | none => scanAnchors (c == '\n') rest
    else scanAnchors (c == '\n') rest

/-- `content.match(/^\s*version\s*=\s*["']([^"']+)["']\s*$/m)` restricted to
its captured group (line 126). -/
def pyMatchVersion (content : String) : Option String :=
  (scanAnchors true content.data).map String.mk

/-- The node branch of version resolution (lines 105-117). The filesystem
answer is `none` when `package.json` does not exist; otherwise
`some (Except.error ())` when the file exists but `readJsonFile` fails
(which throws — there is no try/catch on this branch), and
`some (Except.ok v)` when it parses with optional `version` field `v`.
On a parsed manifest without a version field nothing is logged. -/
def nodeVersionResolve : Option (Except Unit (Option String)) → Except String (Option String × List String)
  | none => Except.ok (none, [warnPkgJsonMissing])
  | some (Except.error _) => Except.error errPackageJsonParse
  | some (Except.ok none) => Except.ok (none, [])
  | some (Except.ok (some v)) => Except.ok (some ("v" ++ dashify v), [])

/-- The python branch of version resolution (lines 118-139). The filesystem
answer is `none` when `pyproject.toml` does not exist, otherwise the file's
contents. The branch is wrapped in try/catch, so it never throws. -/
def pyVersionResolve : Option String → Option String × List String
  | none => (none, [warnPyMissing])
  | some content =>
    match pyMatchVersion content with
    | some ver => (some ("v" ++ dashify ver), [])
    | none => (none, [warnPyNoVersion])

/-- The observable answers of the external collaborators consulted by the
executor: the Nx context/project graph and the filesystem. -/
structure DeployEnv where
  ctxProjectName : Option String := none
  outputDirectory : Option String := none
  packageJsonFile : Option (Except Unit (Option String)) := none
  pyprojectFile : Option String := none

/-- Lines 102-141: resolve the package version (with its logged warnings)
when `tagWithVersion` is set; `packageVersion` stays `null` otherwise. -/
def versionResolution (tagWithVersion : Bool) (mt : ManifestType) (env : DeployEnv) :
    Except String (Option String × List String) :=
  if tagWithVersion then
    match mt with
    | ManifestType.node => nodeVersionResolve env.packageJsonFile
    | ManifestType.python => Except.ok (pyVersionResolve env.pyprojectFile)
  else Except.ok (none, [])

/-- Lines 143-147: the base command verb; a truthy `volumeName` switches to
the beta surface. -/
def gcloudDeployOf (volumeName : Option String) : String :=
  if volTruthy volumeName then "gcloud beta run deploy" else "gcloud run deploy"

/-- Line 167: `tag: (tagWithVersion && packageVersion) ?? undefined`.
JS `&&` returns its first falsy operand, and `??` replaces only
`null`/`undefined`; so a falsy `tagWithVersion` leaves the boolean `false`
in the args object (not `undefined`). -/
def tagVal (tagWithVersion : Bool) (packageVersion : Option String) : JsVal :=
  if tagWithVersion then
    match packageVersion with
    | some v => JsVal.vstr v
    | none => JsVal.undef
  else JsVal.vbool false

/-- Line 171: `'add-volume': volumeName ? `name=...` : undefined`
(a truthy test, so the empty string also yields `undefined`). -/
def addVolumeVal : Option String → JsVal
  | none => JsVal.undef
  | some v => if v == "" then JsVal.undef else JsVal.vstr ("name=" ++ v)

/-- The args object of lines 150-172 in its JS insertion order, minus the
positional `_` entry (handled separately by the unparser). The destructuring
defaults of lines 59-83 (`allowUnauthenticated = true`,
`tagWithVersion = false`) are applied here. -/
def argsOf (o : ExecutorSchema) (packageVersion : Option String) : List (String × JsVal) :=
  [("project", JsVal.vstr o.project),
   ("platform", JsVal.vstr "managed"),
   ("quiet", JsVal.vbool true),
   ("region", JsVal.vstr o.region),
   ("min-instances", jsNum o.minInstances),
   ("max-instances", jsNum o.maxInstances),
   ("concurrency", jsNum o.concurrency),
   ("execution-environment", jsStr o.executionEnvironment),
   ("vpc-connector", jsStr o.vpcConnector),
   ("vpc-egress", jsStr o.vpcEgress),
   ("ingress", jsStr o.ingress),
   ("revision-suffix", jsStr o.revisionSuffix),
   ("service-account", jsStr o.serviceAccount),
   ("timeout", jsNum o.timeout),
   ("add-cloudsql-instances", jsStr o.cloudSqlInstance),
   ("tag", tagVal (o.tagWithVersion.getD false) packageVersion),
   ("cpu-boost", jsBool o.cpuBoost),
   ("no-traffic", jsBool o.noTraffic),
   ("allow-unauthenticated", JsVal.vbool (o.allowUnauthenticated.getD true)),
   ("add-volume", addVolumeVal o.volumeName)]

/-- `yargs-unparser`'s flag rendering: single-character keys get one dash,
longer keys two. -/
def keyToFlag (key : String) : String :=
  if key.length = 1 then "-" ++ key else "--" ++ key

/-- `yargs-unparser`'s `unparseOption` for the value shapes that occur here:
a string or number becomes the flag token followed by the value as a
separate token; `true` becomes the bare flag; `false` becomes the negated
`--no-<key>` token; `undefined` produces nothing. -/
def unparseOption (key : String) : JsVal → List String
  | JsVal.vstr s => [keyToFlag key, s]
  | JsVal.vbool true => [keyToFlag key]
  | JsVal.vbool false => ["--no-" ++ key]
  | JsVal.vnum n => [keyToFlag key, toString n]
  | JsVal.undef => []

/-- `yargsUnparser(args)` (line 175) for this args object: the positional
`_` entries first, then each remaining key unparsed in insertion order.
(None of the keys here is an alias, camel-cased, or a default, so the
library's filters keep them all.) -/
def yargsUnparser (positional : List String) (args : List (String × JsVal)) : List String :=
  positional ++ args.flatMap fun kv => unparseOption kv.1 kv.2

/-- Modelled from the spec: the container-identifier part of
`getContainerFlags` (`./utils/get-container-flags`, not in the snapshot).
In a multi-container deployment every container is tagged with an explicit
container identifier flag. -/
def containerIdTokens (c : ContainerFlags) (multi : Bool) : List String :=
  if multi then ["--container", c.containerName.getD "app"] else []

/-- Optional two-token flag emission for a container field. -/
def optTokens (flag : String) : Option String → List String
  | some v => [flag, v]
  | none => []

/-- Modelled from the spec: the per-container body flags of
`getContainerFlags`; a missing optional container field is simply
omitted. -/
def containerBodyTokens (c : ContainerFlags) : List String :=
  optTokens "--image" c.image ++ optTokens "--memory" c.memory ++
    optTokens "--cpu" c.cpu ++ optTokens "--port" c.port

/-- Modelled from the spec: `getContainerFlags(spec, multi)` — the flag
subset describing one container; the identifier qualifier is present
exactly in the multi-container case. -/
def getContainerFlags (c : ContainerFlags) (multi : Bool) : List String :=
  containerIdTokens c multi ++ containerBodyTokens c

/-- What the executor hands to `execCommand` (line 191), together with the
warnings logged on the way (the observable effects the claims mention). -/
structure DeployRun where
  gcloudDeploy : String
  commandParts : List String
  fullCommand : String
  warnings : List String
deriving DecidableEq

/-- Destructuring default of line 62: `name = context.projectName`. -/
def nameResolved (name : Option String) (ctxProjectName : Option String) : Option String :=
  match name with
  | some s => some s
  | none => ctxProjectName

/-- Lines 143-191 after validation and version resolution: compose the
command parts, the joined command string and the logged warnings. -/
def composeRun (o : ExecutorSchema) (name : String) (packageVersion : Option String)
    (resolveWarnings : List String) : DeployRun :=
  let gcloudDeploy := gcloudDeployOf o.volumeName
  let sidecars := o.sidecars.getD []
  let baseFlags := yargsUnparser [name] (argsOf o packageVersion)
  let containerFlags := getContainerFlags o.toContainerFlags (decide (0 < sidecars.length))
  let sidecarFlags := sidecars.flatMap fun sc => getContainerFlags sc true
  let commandParts := ([gcloudDeploy] ++ baseFlags ++ containerFlags ++ sidecarFlags).filter fun s => s != ""
  { gcloudDeploy := gcloudDeploy
    commandParts := commandParts
    fullCommand := String.intercalate " " commandParts
    warnings := resolveWarnings ++ if volTruthy o.volumeName then [warnVolumesBeta] else [] }

/-- The deploy executor (lines 46-192). A falsy resolved output directory
and a falsy resolved name throw (lines 55-57 and 85-87); a node manifest
parse failure propagates out of lines 105-117; otherwise the compiled
command is returned. Dockerfile staging (lines 92-100) only copies a file
and does not influence the command. -/
def deployExecutor (env : DeployEnv) (options : ExecutorSchema) : Except String DeployRun :=
  if strFalsy env.outputDirectory then Except.error errNoOutputPath
  else if strFalsy (nameResolved options.name env.ctxProjectName) then Except.error errNameRequired
  else
    match versionResolution (options.tagWithVersion.getD false) (options.manifestType.getD ManifestType.node) env with
    | Except.error e => Except.error e
    | Except.ok (packageVersion, resolveWarnings) =>
      Except.ok (composeRun options ((nameResolved options.name env.ctxProjectName).getD "") packageVersion resolveWarnings)

end Deploy

namespace DeploySecrets

/-- Secret validation of lines 293-300: an entry is considered valid when it
contains at least one `'='` and at least one `':'` anywhere
(`secret.includes('=') && secret.includes(':')`). Single-character
`includes` is character membership. -/
def isValidSecret (s : String) : Bool :=
  decide ('=' ∈ s.data) && decide (':' ∈ s.data)

/-- `validSecrets` (lines 293-300): invalid entries are mapped to `false`
and removed by `.filter(Boolean)`; since no valid entry is the empty
string, this is exactly a filter by `isValidSecret`. -/
def validSecrets (secrets : List String) : List String :=
  secrets.filter isValidSecret

/-- One `logger.warn` is issued per invalid entry (line 298). -/
def secretWarnings (secrets : List String) : Nat :=
  secrets.countP fun s => !isValidSecret s

/-- Lines 312-316: any valid secret switches the base command to the beta
surface. -/
def gcloudCommand (secrets : List String) : String :=
  if 0 < (validSecrets secrets).length then "gcloud beta" else "gcloud"

/-- Line 319: the first entry of the deploy command. -/
def deployCommandHead (secrets : List String) (name : String) : String :=
  gcloudCommand secrets ++ " run deploy " ++ name

/-- Line 338: the `--set-secrets` flag is emitted only when at least one
valid secret remains, joining them with commas. -/
def setSecretsFlag (secrets : List String) : Option String :=
  if 0 < (validSecrets secrets).length then
    some ("--set-secrets=" ++ String.intercalate "," (validSecrets secrets))
  else none

/-- Stated from the spec's words (claim C9): an entry "of the form
NAME=SECRET:VERSION" — some `'='` with some `':'` somewhere after it. This
is the weakest reading of that shape (it does not even require the three
components to be non-empty or quote-free), so anything outside it is
malformed under every reading. -/
def SpecFormSecret (s : List Char) : Prop :=
  ∃ name secretPart versionPart : List Char,
    s = name ++ '=' :: (secretPart ++ ':' :: versionPart)

/-- Bool check used to refute `SpecFormSecret` on concrete entries: is
there an `'='` with a `':'` somewhere after it? -/
def eqThenColon : List Char → Bool
  | [] => false
  | c :: rest => (c == '=' && rest.any (· == ':')) || eqThenColon rest

end DeploySecrets

namespace Deploy

/-- Character-level line splitting at `'\n'`, used to state the spec's
"full line" reading of the manifest pattern. -/
def splitLinesChars : List Char → List (List Char)
  | [] => [[]]
  | '\n' :: rest => [] :: splitLinesChars rest
  | c :: rest =>
    match splitLinesChars rest with
    | [] => [[c]]
    | l :: ls => (c :: l) :: ls

/-- Stated from the spec's words (claim C6): a single full line of the
manifest, on its own, matches the version pattern. -/
def lineHasVersionMatch (line : List Char) : Bool :=
  (matchFrom line).isSome

/-! Concrete inputs used by the claim theorems and witnesses. -/

/-- A minimal valid environment: resolvable output directory, a project
name in the context, no manifest files. -/
def envMinimal : DeployEnv :=
  { ctxProjectName := some "svc", outputDirectory := some "dist" }

/-- A minimal configuration: only the required fields, every optional field
omitted. -/
def optsMinimal : ExecutorSchema :=
  { name := some "svc", project := "p1", region := "r1" }

/-- Environment whose `package.json` parses with version `1.2.3`. -/
def envWithPkg : DeployEnv :=
  { ctxProjectName := some "svc", outputDirectory := some "dist",
    packageJsonFile := some (Except.ok (some "1.2.3")) }

/-- A configuration requesting version tagging from the node manifest. -/
def optsTagged : ExecutorSchema :=
  { name := some "svc", project := "p1", region := "r1", tagWithVersion := some true }

/-- A second minimal configuration (for claim C3's untagged case). -/
def optsMinimal2 : ExecutorSchema :=
  { name := some "svc", project := "p2", region := "r2" }

/-- Environment whose `package.json` exists but fails to parse. -/
def envBadPkg : DeployEnv :=
  { ctxProjectName := some "svc", outputDirectory := some "dist",
    packageJsonFile := some (Except.error ()) }

/-- A second tagging configuration (for claim C8's counterexample). -/
def optsTagged2 : ExecutorSchema :=
  { name := some "other", project := "p3", region := "r3", tagWithVersion := some true }

/-- A configuration with a volume descriptor. -/
def optsVol : ExecutorSchema :=
  { name := some "svc", project := "p1", region := "r1", volumeName := some "vol" }

/-- The run the executor produces for `envMinimal`/`optsVol`. -/
def runVol : DeployRun := composeRun optsVol "svc" none []

/-- The configuration of the spec's end-to-end example (claim C5). -/
def optsC5 : ExecutorSchema :=
  { name := some "svc", project := "p1", region := "us-central1",
    allowUnauthenticated := some true }

/-- The run the executor produces for the claim C5 example. -/
def runC5 : DeployRun := composeRun optsC5 "svc" none []

/-- A manifest on which the version pattern matches across a line boundary:
no single full line matches, yet the pattern does. -/
def pyMultiline : String := "version = '1.\n2'"

/-- A sidecar container spec used by claim C7's witness. -/
def sidecarSpec : ContainerFlags := { containerName := some "side", image := some "img2" }

/-- A configuration with one sidecar. -/
def optsSidecar : ExecutorSchema :=
  { name := some "svc", project := "p1", region := "r1",
    image := some "img1", sidecars := some [sidecarSpec] }

/-- The run the executor produces for `envMinimal`/`optsSidecar`. -/
def runSidecar : DeployRun := composeRun optsSidecar "svc" none []

/-- The run the executor produces for `envMinimal`/`optsMinimal`. -/
def runMinimal : DeployRun := composeRun optsMinimal "svc" none []

/-- The run the executor produces for `envWithPkg`/`optsTagged`. -/
def runTagged : DeployRun := composeRun optsTagged "svc" (some "v1-2-3") []

/-- The run the executor produces for `envMinimal`/`optsMinimal2`. -/
def runMinimal2 : DeployRun := composeRun optsMinimal2 "svc" none []

/-- Second bad-parse environment (for claim C8). -/
def envBadPkg2 : DeployEnv :=
  { ctxProjectName := some "third", outputDirectory := some "out",
    packageJsonFile := some (Except.error ()) }

/-- Third tagging configuration (for claim C8). -/
def optsTagged3 : ExecutorSchema :=
  { name := some "third", project := "p4", region := "r4", tagWithVersion := some true }

end Deploy

namespace Deploy

/-! Helper lemmas shared by the claim theorems. -/

/-- Projections of `composeRun`. -/
theorem composeRun_gcloudDeploy (o : ExecutorSchema) (nm : String) (pv : Option String)
    (ws : List String) : (composeRun o nm pv ws).gcloudDeploy = gcloudDeployOf o.volumeName := rfl

/-- The command parts of a composed run, spelled out. -/
theorem composeRun_commandParts (o : ExecutorSchema) (nm : String) (pv : Option String)
    (ws : List String) :
    (composeRun o nm pv ws).commandParts
      = ([gcloudDeployOf o.volumeName] ++ yargsUnparser [nm] (argsOf o pv)
          ++ getContainerFlags o.toContainerFlags (decide (0 < (o.sidecars.getD []).length))
          ++ (o.sidecars.getD []).flatMap (fun sc => getContainerFlags sc true)).filter
            (fun s => s != "") := rfl

/-- Successful runs are exactly composed runs of a successful resolution. -/
theorem deployExecutor_ok {env : DeployEnv} {opts : ExecutorSchema} {r : DeployRun}
    (h : deployExecutor env opts = Except.ok r) :
    ∃ pv ws,
      versionResolution (opts.tagWithVersion.getD false) (opts.manifestType.getD ManifestType.node)
          env = Except.ok (pv, ws) ∧
      r = composeRun opts ((nameResolved opts.name env.ctxProjectName).getD "") pv ws := by
  unfold deployExecutor at h
  by_cases h1 : strFalsy env.outputDirectory = true
  · simp [h1] at h
  · by_cases h2 : strFalsy (nameResolved opts.name env.ctxProjectName) = true
    · simp [h1, h2] at h
    · rcases hres : versionResolution (opts.tagWithVersion.getD false)
          (opts.manifestType.getD ManifestType.node) env with e | ⟨pv, ws⟩
      · rw [hres] at h; simp [h1, h2] at h
      · rw [hres] at h
        simp [h1, h2] at h
        exact ⟨pv, ws, rfl, h.symm⟩

/-- A token emitted for an args-object entry ends up in the command parts. -/
theorem token_in_commandParts (o : ExecutorSchema) (nm : String) (pv : Option String)
    (ws : List String) {kv : String × JsVal} (hkv : kv ∈ argsOf o pv) {t : String}
    (ht : t ∈ unparseOption kv.1 kv.2) (hne : (t != "") = true) :
    t ∈ (composeRun o nm pv ws).commandParts := by
  rw [composeRun_commandParts]
  refine List.mem_filter.2 ⟨?_, hne⟩
  simp only [yargsUnparser, List.mem_append, List.mem_flatMap]
  exact Or.inl (Or.inl (Or.inr (Or.inr ⟨kv, hkv, ht⟩)))

/-- A failing version resolution can only be the node-manifest parse
failure. -/
theorem versionResolution_error {tw : Bool} {mt : ManifestType} {env : DeployEnv} {e : String}
    (h : versionResolution tw mt env = Except.error e) : e = errPackageJsonParse := by
  cases tw with
  | false => simp [versionResolution] at h
  | true =>
    cases mt with
    | python => simp [versionResolution] at h
    | node =>
      simp only [versionResolution, if_true] at h
      rcases hf : env.packageJsonFile with _ | pj
      · rw [hf] at h; simp [nodeVersionResolve] at h
      · rw [hf] at h
        rcases pj with u | ov
        · simp [nodeVersionResolve] at h; exact h.symm
        · rcases ov with _ | v <;> simp [nodeVersionResolve] at h

/-- A nonempty appended string is not empty (for filter survival). -/
theorem append_ne_empty (v : String) : (("name=" ++ v) != "") = true := by
  have : ("name=" ++ v).data = 'n' :: ("ame=" ++ v).data := rfl
  simp only [bne_iff_ne, ne_eq]
  intro hcontra
  have hd := congrArg String.data hcontra
  rw [this] at hd
  simp at hd

/-- C1: the claim that a configuration omitting an optional field never
contributes any token for that field — including negated forms — fails on
the code: with `tagWithVersion` omitted (so defaulted to `false`), line 167
leaves the boolean `false` in the args object (`?? undefined` does not
replace `false`), and `yargs-unparser` renders it as the negated token
`--no-tag` in the compiled command. -/
theorem c1_omitted_field_emits_negated_tag :
    deployExecutor envMinimal optsMinimal = Except.ok runMinimal ∧
    "--no-tag" ∈ runMinimal.commandParts := ⟨rfl, by decide⟩

/-- C3: the `--tag` flag with the resolved version does appear when
`tagWithVersion` is set and resolution succeeds, but in the complementary
case the output is not free of tag-related tokens: the command carries
`--no-tag` whenever `tagWithVersion` is falsy. -/
theorem c3_tag_flag_cases :
    (deployExecutor envWithPkg optsTagged = Except.ok runTagged ∧
      runTagged.commandParts
        = ["gcloud run deploy", "svc", "--project", "p1", "--platform", "managed", "--quiet",
           "--region", "r1"] ++ ["--tag", "v1-2-3"] ++ ["--allow-unauthenticated"]) ∧
    (deployExecutor envMinimal optsMinimal2 = Except.ok runMinimal2 ∧
      "--no-tag" ∈ runMinimal2.commandParts) :=
  ⟨⟨rfl, by decide⟩, ⟨rfl, by decide⟩⟩

/-- C2: counterexample. Version resolution CAN raise a fatal error: on the
node path a manifest that exists but fails to parse propagates
`readJsonFile`'s exception out of the executor (lines 105-117 have no
try/catch), even though the output directory resolves and the name is
non-empty. -/
theorem c2_node_parse_failure_fatal :
    strFalsy envBadPkg.outputDirectory = false ∧
    strFalsy (nameResolved optsTagged2.name envBadPkg.ctxProjectName) = false ∧
    deployExecutor envBadPkg optsTagged2 = Except.error errPackageJsonParse :=
  ⟨rfl, rfl, rfl⟩

/-- C2 (amended): python-path resolution never raises — a missing
`pyproject.toml` or a failed pattern match each yield no tag and exactly
one warning; node-path resolution warns and continues on a missing
`package.json`, continues without any warning on a parsed manifest that
lacks a version field, succeeds on a present version field, and raises a
fatal error on a manifest parse failure. -/
theorem c2_resolution_error_handling :
    pyVersionResolve none = (none, [warnPyMissing]) ∧
    (∀ content, pyMatchVersion content = none →
        pyVersionResolve (some content) = (none, [warnPyNoVersion])) ∧
    (∀ env : DeployEnv, (versionResolution true ManifestType.python env).isOk = true) ∧
    nodeVersionResolve none = Except.ok (none, [warnPkgJsonMissing]) ∧
    nodeVersionResolve (some (Except.ok none)) = Except.ok (none, []) ∧
    (∀ v, nodeVersionResolve (some (Except.ok (some v)))
        = Except.ok (some ("v" ++ dashify v), [])) ∧
    nodeVersionResolve (some (Except.error ())) = Except.error errPackageJsonParse := by
  refine ⟨rfl, ?_, fun env => rfl, rfl, rfl, fun v => rfl, rfl⟩
  intro content hmatch
  simp [pyVersionResolve, hmatch]

/-- C2 witness: the amended behaviour evaluated on a concrete manifest with
no version line. -/
theorem c2_resolution_error_handling_witness :
    pyVersionResolve (some "x = 1") = (none, [warnPyNoVersion]) :=
  c2_resolution_error_handling.2.1 "x = 1" (by decide)

/-- C5: counterexample. For the spec's end-to-end example configuration the
compiled command does not begin with the claimed `=`-joined prefix (the
unparser emits flag and value as separate space-joined tokens), and it is
not free of tag tokens: it contains `--no-tag`. -/
theorem c5_example_not_as_claimed :
    deployExecutor envMinimal optsC5 = Except.ok runC5 ∧
    ("gcloud run deploy svc --project=p1 --platform=managed --quiet --region=us-central1".data.isPrefixOf
        runC5.fullCommand.data) = false ∧
    "--no-tag" ∈ runC5.commandParts :=
  ⟨rfl, by decide, by decide⟩

/-- C5 (amended): the example configuration compiles to exactly
`gcloud run deploy svc --project p1 --platform managed --quiet --region
us-central1 --no-tag --allow-unauthenticated`: it begins with the
space-joined form of the claimed prefix, contains `--allow-unauthenticated`,
contains no `--tag`, volume or container-identifier tokens — but does
contain the spurious `--no-tag` token. -/
theorem c5_example_command :
    deployExecutor envMinimal optsC5 = Except.ok runC5 ∧
    runC5.fullCommand
      = "gcloud run deploy svc --project p1 --platform managed --quiet --region us-central1 --no-tag --allow-unauthenticated" ∧
    ("gcloud run deploy svc --project p1 --platform managed --quiet --region us-central1".data.isPrefixOf
        runC5.fullCommand.data) = true ∧
    "--allow-unauthenticated" ∈ runC5.commandParts ∧
    "--tag" ∉ runC5.commandParts ∧
    "--add-volume" ∉ runC5.commandParts ∧
    "--container" ∉ runC5.commandParts ∧
    "--no-tag" ∈ runC5.commandParts :=
  ⟨rfl, by decide, by decide, by decide, by decide, by decide, by decide, by decide⟩

/-- C6: counterexample. The pattern of line 126 is applied to the whole
manifest in multiline mode, and both `\s` and the negated class `[^"']`
match the newline: on `"version = '1.\n2'"` no single full line matches the
pattern, yet resolution produces the tag `v1-\n2` and no warning —
refuting "a manifest with no such line yields no tag and exactly one
warning". -/
theorem c6_no_line_matches_yet_tagged :
    (∀ line ∈ splitLinesChars pyMultiline.data, lineHasVersionMatch line = false) ∧
    pyVersionResolve (some pyMultiline) = (some "v1-\n2", []) :=
  ⟨by decide, by decide⟩

/-- C6 (amended): a node manifest version `1.2.3` resolves to `v1-2-3`; a
TOML manifest containing a full line matching the version pattern (single
or double quotes, surrounding whitespace) resolves to `v0-4-0`; and a TOML
manifest on which the (multiline-capable) pattern finds no match at all
yields no tag and exactly one warning. -/
theorem c6_version_normalization :
    nodeVersionResolve (some (Except.ok (some "1.2.3"))) = Except.ok (some "v1-2-3", []) ∧
    pyVersionResolve (some "version = \"0.4.0\"") = (some "v0-4-0", []) ∧
    pyVersionResolve (some "  version = '0.4.0'  ") = (some "v0-4-0", []) ∧
    (∀ content, pyMatchVersion content = none →
        pyVersionResolve (some content) = (none, [warnPyNoVersion])) := by
  refine ⟨rfl, by decide, by decide, ?_⟩
  intro content hmatch
  simp [pyVersionResolve, hmatch]

/-- C6 witness: the amended no-match case evaluated on a concrete
manifest. -/
theorem c6_version_normalization_witness :
    pyVersionResolve (some "[tool.poetry]") = (none, [warnPyNoVersion]) :=
  c6_version_normalization.2.2.2 "[tool.poetry]" (by decide)

/-- C4: counterexample. A present volume descriptor does switch the verb to
the beta surface, but it does not add a single `--add-volume=name=<X>`
token: the unparser emits `--add-volume` and `name=<X>` as two separate
tokens (space-joined in the command string). -/
theorem c4_no_single_add_volume_token :
    deployExecutor envMinimal optsVol = Except.ok runVol ∧
    runVol.gcloudDeploy = "gcloud beta run deploy" ∧
    "--add-volume=name=vol" ∉ runVol.commandParts ∧
    "--add-volume" ∈ runVol.commandParts ∧
    "name=vol" ∈ runVol.commandParts :=
  ⟨rfl, rfl, by decide, by decide, by decide⟩

/-- C4 (amended): for every successful run, the verb is the beta surface
`gcloud beta run deploy` exactly when a truthy (non-empty) volume name is
present; a truthy volume name makes the add-volume argument emit exactly
the two consecutive tokens `--add-volume` and `name=<X>`, both of which
appear in the compiled parts; an absent (or empty) volume name makes the
add-volume argument emit nothing. -/
theorem c4_volume_switch (env : DeployEnv) (opts : ExecutorSchema) (r : DeployRun)
    (h : deployExecutor env opts = Except.ok r) :
    (r.gcloudDeploy = "gcloud beta run deploy" ↔ volTruthy opts.volumeName = true) ∧
    (r.gcloudDeploy = "gcloud run deploy" ↔ volTruthy opts.volumeName = false) ∧
    (∀ v, opts.volumeName = some v → (v == "") = false →
        unparseOption "add-volume" (addVolumeVal opts.volumeName)
          = ["--add-volume", "name=" ++ v] ∧
        "--add-volume" ∈ r.commandParts ∧ ("name=" ++ v) ∈ r.commandParts) ∧
    (volTruthy opts.volumeName = false →
        unparseOption "add-volume" (addVolumeVal opts.volumeName) = []) := by
  obtain ⟨pv, ws, hres, rfl⟩ := deployExecutor_ok h
  rw [composeRun_gcloudDeploy]
  have hmemargs : ("add-volume", addVolumeVal opts.volumeName) ∈ argsOf opts pv := by
    simp [argsOf]
  refine ⟨?_, ?_, ?_, ?_⟩
  · unfold gcloudDeployOf
    cases hv : volTruthy opts.volumeName <;> simp [hv]
  · unfold gcloudDeployOf
    cases hv : volTruthy opts.volumeName <;> simp [hv]
  · intro v hv hvne
    have hval : addVolumeVal opts.volumeName = JsVal.vstr ("name=" ++ v) := by
      simp [addVolumeVal, hv, hvne]
    have hunparse : unparseOption "add-volume" (addVolumeVal opts.volumeName)
        = ["--add-volume", "name=" ++ v] := by
      rw [hval]; rfl
    refine ⟨hunparse, ?_, ?_⟩
    · exact token_in_commandParts opts _ pv ws hmemargs
        (by rw [hunparse]; exact List.mem_cons_self _ _) (by decide)
    · exact token_in_commandParts opts _ pv ws hmemargs
        (by rw [hunparse]; simp) (append_ne_empty v)
  · intro hfalse
    rcases hv : opts.volumeName with _ | v
    · rfl
    · rw [hv] at hfalse
      have hveq : v = "" := by
        have hb : (v == "") = true := by simpa [volTruthy, strFalsy] using hfalse
        exact eq_of_beq hb
      rw [hveq]
      rfl

/-- C4 witness: the amended statement evaluated on the volume
configuration. -/
theorem c4_volume_switch_witness :
    (runVol.gcloudDeploy = "gcloud beta run deploy" ↔ volTruthy optsVol.volumeName = true) ∧
    (unparseOption "add-volume" (addVolumeVal optsVol.volumeName)
        = ["--add-volume", "name=" ++ "vol"] ∧
      "--add-volume" ∈ runVol.commandParts ∧ ("name=" ++ "vol") ∈ runVol.commandParts) :=
  ⟨(c4_volume_switch envMinimal optsVol runVol rfl).1,
   (c4_volume_switch envMinimal optsVol runVol rfl).2.2.1 "vol" rfl (by decide)⟩

/-- C7 (spec-modelled): with zero sidecars the primary container's flag
group carries no container-identifier tokens; with at least one sidecar the
primary group and every sidecar group start with the container-identifier
qualifier; and the command parts are the base flags, then the primary
container group, then the sidecar groups concatenated in declaration
order. -/
theorem c7_container_identifier (env : DeployEnv) (opts : ExecutorSchema) (r : DeployRun)
    (h : deployExecutor env opts = Except.ok r) :
    (opts.sidecars.getD [] = [] →
        containerIdTokens opts.toContainerFlags
          (decide (0 < (opts.sidecars.getD []).length)) = []) ∧
    (opts.sidecars.getD [] ≠ [] →
        containerIdTokens opts.toContainerFlags
            (decide (0 < (opts.sidecars.getD []).length))
          = ["--container", opts.containerName.getD "app"] ∧
        ∀ sc ∈ opts.sidecars.getD [],
          containerIdTokens sc true = ["--container", sc.containerName.getD "app"]) ∧
    (∃ pv ws,
      versionResolution (opts.tagWithVersion.getD false) (opts.manifestType.getD ManifestType.node)
          env = Except.ok (pv, ws) ∧
      r.commandParts
        = ([gcloudDeployOf opts.volumeName]
            ++ yargsUnparser [(nameResolved opts.name env.ctxProjectName).getD ""] (argsOf opts pv)
            ++ getContainerFlags opts.toContainerFlags (decide (0 < (opts.sidecars.getD []).length))
            ++ (opts.sidecars.getD []).flatMap (fun sc => getContainerFlags sc true)).filter
              (fun s => s != "")) := by
  obtain ⟨pv, ws, hres, rfl⟩ := deployExecutor_ok h
  refine ⟨?_, ?_, ⟨pv, ws, hres, composeRun_commandParts _ _ _ _⟩⟩
  · intro hnil
    simp [containerIdTokens, hnil]
  · intro hne
    have hpos : 0 < (opts.sidecars.getD []).length := List.length_pos.2 hne
    constructor
    · simp [containerIdTokens, hpos]
    · intro sc _
      rfl

/-- C7 witness: the identifier behaviour evaluated on a one-sidecar
configuration. -/
theorem c7_container_identifier_witness :
    (optsSidecar.sidecars.getD [] ≠ []) ∧
    containerIdTokens optsSidecar.toContainerFlags
        (decide (0 < (optsSidecar.sidecars.getD []).length))
      = ["--container", optsSidecar.containerName.getD "app"] :=
  ⟨by decide,
   ((c7_container_identifier envMinimal optsSidecar runSidecar rfl).2.1 (by decide)).1⟩

/-- C8: counterexample. The executor can abort with a fatal error even when
the output directory resolves and the deployment name is non-empty: a node
manifest parse failure under `tagWithVersion` also aborts, so the claimed
"exactly when" equivalence fails. -/
theorem c8_fatal_beyond_config_errors :
    strFalsy envBadPkg2.outputDirectory = false ∧
    strFalsy (nameResolved optsTagged3.name envBadPkg2.ctxProjectName) = false ∧
    deployExecutor envBadPkg2 optsTagged3 = Except.error errPackageJsonParse :=
  ⟨rfl, rfl, rfl⟩

/-- C8 (amended): the output-directory error is raised exactly when the
resolved output directory is falsy, the name error exactly when the
directory resolves but the name is falsy after the fallback; with a
resolvable directory and a non-empty name those two configuration errors
never occur, though the run may still abort on a node-manifest parse
failure. -/
theorem c8_fatal_conditions (env : DeployEnv) (opts : ExecutorSchema) :
    (deployExecutor env opts = Except.error errNoOutputPath ↔
        strFalsy env.outputDirectory = true) ∧
    (deployExecutor env opts = Except.error errNameRequired ↔
        (strFalsy env.outputDirectory = false ∧
         strFalsy (nameResolved opts.name env.ctxProjectName) = true)) ∧
    (strFalsy env.outputDirectory = false →
     strFalsy (nameResolved opts.name env.ctxProjectName) = false →
     ((∃ r, deployExecutor env opts = Except.ok r) ∨
       deployExecutor env opts = Except.error errPackageJsonParse)) := by
  by_cases h1 : strFalsy env.outputDirectory = true
  · refine ⟨?_, ?_, ?_⟩
    · simp [deployExecutor, h1]
    · simp [deployExecutor, h1]
      decide
    · intro hcontra
      rw [h1] at hcontra
      exact absurd hcontra (by decide)
  · have h1f : strFalsy env.outputDirectory = false := by simpa using h1
    by_cases h2 : strFalsy (nameResolved opts.name env.ctxProjectName) = true
    · refine ⟨?_, ?_, ?_⟩
      · simp [deployExecutor, h1, h2]
        decide
      · simp [deployExecutor, h1, h2, h1f]
      · intro _ hcontra
        rw [h2] at hcontra
        exact absurd hcontra (by decide)
    · rcases hres : versionResolution (opts.tagWithVersion.getD false)
          (opts.manifestType.getD ManifestType.node) env with e | ⟨pv, ws⟩
      · have he : e = errPackageJsonParse := versionResolution_error hres
        refine ⟨?_, ?_, ?_⟩
        · simp [deployExecutor, h1, h2, hres, he]
          decide
        · simp [deployExecutor, h1, h2, hres, he]
          decide
        · intro _ _
          right
          simp [deployExecutor, h1, h2, hres, he]
      · refine ⟨?_, ?_, ?_⟩
        · simp [deployExecutor, h1, h2, hres]
        · simp [deployExecutor, h1, h2, hres]
        · intro _ _
          left
          exact ⟨composeRun opts ((nameResolved opts.name env.ctxProjectName).getD "") pv ws,
            by simp [deployExecutor, h1, h2, hres]⟩

/-- C8 witness: the amended conditions evaluated on a healthy minimal
configuration. -/
theorem c8_fatal_conditions_witness :
    (∃ r, deployExecutor envMinimal optsMinimal = Except.ok r) ∨
      deployExecutor envMinimal optsMinimal = Except.error errPackageJsonParse :=
  (c8_fatal_conditions envMinimal optsMinimal).2.2 rfl rfl

end Deploy

namespace DeploySecrets

/-- Any entry of the NAME=SECRET:VERSION shape has an `'='` followed
somewhere later by a `':'`. -/
theorem specForm_eqThenColon {s : List Char} (h : SpecFormSecret s) :
    eqThenColon s = true := by
  obtain ⟨n, sp, vp, rfl⟩ := h
  induction n with
  | nil => simp [eqThenColon, List.any_append]
  | cons c cs ih => simp [eqThenColon, ih]

/-- C9: counterexample. The entry `A:B=C` is not of the form
NAME=SECRET:VERSION under any reading (its only `'='` has no `':'` after
it), yet the validation of lines 293-300 keeps it — with no warning —
because it merely checks that both characters occur somewhere. -/
theorem c9_malformed_entry_kept :
    ¬ SpecFormSecret "A:B=C".data ∧
    validSecrets ["A:B=C"] = ["A:B=C"] ∧
    secretWarnings ["A:B=C"] = 0 :=
  ⟨fun h => absurd (specForm_eqThenColon h) (by decide), by decide, by decide⟩

/-- C9 (amended): an entry is kept if and only if it contains at least one
`'='` and at least one `':'` anywhere; each dropped entry accounts for
exactly one warning (kept + warned = total); every entry of the
NAME=SECRET:VERSION form is kept; and the kept entries are joined with
commas into the `--set-secrets` flag, with which the deployment
proceeds. -/
theorem c9_secret_filtering (secrets : List String) (s : String) :
    (s ∈ validSecrets secrets ↔ s ∈ secrets ∧ isValidSecret s = true) ∧
    (SpecFormSecret s.data → isValidSecret s = true) ∧
    secretWarnings secrets + (validSecrets secrets).length = secrets.length ∧
    (validSecrets secrets ≠ [] →
        setSecretsFlag secrets
          = some ("--set-secrets=" ++ String.intercalate "," (validSecrets secrets))) := by
  refine ⟨List.mem_filter, ?_, ?_, ?_⟩
  · rintro ⟨n, sp, vp, hs⟩
    have he : '=' ∈ s.data := by rw [hs]; simp
    have hc : ':' ∈ s.data := by rw [hs]; simp
    simp [isValidSecret, he, hc]
  · unfold secretWarnings validSecrets
    induction secrets with
    | nil => rfl
    | cons t ts ih =>
      cases ht : isValidSecret t <;>
        simp [List.countP_cons, List.filter_cons, ht, Nat.add_assoc, Nat.add_comm, ih] <;>
        omega
  · intro hne
    have hpos : 0 < (validSecrets secrets).length := List.length_pos.2 hne
    simp [setSecretsFlag, hpos]

/-- C9 witness: a well-formed entry is kept and emitted in the flag. -/
theorem c9_secret_filtering_witness :
    isValidSecret "A=B:1" = true ∧
    setSecretsFlag ["A=B:1"]
      = some ("--set-secrets=" ++ String.intercalate "," (validSecrets ["A=B:1"])) :=
  ⟨(c9_secret_filtering ["A=B:1"] "A=B:1").2.1 ⟨"A".data, "B".data, "1".data, by decide⟩,
   (c9_secret_filtering ["A=B:1"] "A=B:1").2.2.2 (by decide)⟩

/-- C10: in the secrets variant, at least one entry passing validation
switches the base command to `gcloud beta`; with zero valid secrets the
stable `gcloud` command is used; the deploy command starts with that base
command. -/
theorem c10_secrets_beta_switch (secrets : List String) (deployName : String) :
    (gcloudCommand secrets = "gcloud beta" ↔ validSecrets secrets ≠ []) ∧
    (gcloudCommand secrets = "gcloud" ↔ validSecrets secrets = []) ∧
    deployCommandHead secrets deployName
      = gcloudCommand secrets ++ " run deploy " ++ deployName := by
  by_cases hpos : 0 < (validSecrets secrets).length
  · have hne : validSecrets secrets ≠ [] := List.length_pos.mp hpos
    have hcmd : gcloudCommand secrets = "gcloud beta" := by simp [gcloudCommand, hpos]
    refine ⟨?_, ?_, rfl⟩
    · rw [hcmd]; simp [hne]
    · rw [hcmd]
      constructor
      · intro hco; exact absurd hco (by decide)
      · intro hco; exact absurd hco hne
  · have heq : validSecrets secrets = [] := by
      rcases hl : validSecrets secrets with _ | ⟨a, t⟩
      · rfl
      · rw [hl] at hpos; simp at hpos
    have hcmd : gcloudCommand secrets = "gcloud" := by simp [gcloudCommand, hpos]
    refine ⟨?_, ?_, rfl⟩
    · rw [hcmd]
      constructor
      · intro hco; exact absurd hco (by decide)
      · intro hco; exact absurd heq hco
    · rw [hcmd]; simp [heq]

/-- C10 witness: the switch evaluated on one valid secret. -/
theorem c10_secrets_beta_switch_witness :
    gcloudCommand ["A=B:1"] = "gcloud beta" ↔ validSecrets ["A=B:1"] ≠ [] :=
  (c10_secrets_beta_switch ["A=B:1"] "svc").1

end DeploySecrets

